import Mathlib

/-!
Verification of `src/finders/data_finders.py` (deep-ecg-2026).

The module resolves on-disk paths for three ECG dataset layouts (China
12-lead, PTB-XL, MIT-BIH) against a project root, validating that each
expected path exists and has the expected kind, logging as it goes, and
raising `FileNotFoundError` / `ValueError` on failure.

The filesystem is modelled abstractly: a kind assignment for every path
(absent, directory, regular file, or other — sockets and the like, which
`Path.is_dir` / `Path.is_file` both reject), plus a listing of directory
entry names used by `Path.glob("*")` (which matches every entry name,
hidden dot-names included — skipping dot-files is behavior of the `glob`
module, not of the `pathlib.Path.glob` method).
Paths are lists of name components; `showPath` renders them the way
`str(Path(...))` does. Logging is modelled by returning the list of
emitted log lines alongside the result; a raised exception is an
`Except.error` carrying the exception's message.
-/

namespace DataFinders

/-- Kind of a filesystem path: absent, a directory, a regular file, or
something else (socket, device, ...) that `is_dir` and `is_file` both
reject. -/
inductive EntryKind
  | absent
  | dir
  | file
  | other
deriving DecidableEq, Repr

/-- A path, as the list of its name components relative to the filesystem
root of the model. -/
abbrev FsPath := List String

/-- `str(Path)` rendering with `/` separators, as in the log and exception
messages of the source. -/
def showPath (p : FsPath) : String := String.intercalate "/" p

/-- Abstract filesystem state: the kind of every path, and for directories
the list of child entry names (used by `glob`). -/
structure FS where
  kind : FsPath → EntryKind
  children : FsPath → List String

/-- Severity of a log line, matching the `logging` calls in the source. -/
inductive LogLevel
  | info
  | warning
  | error
deriving DecidableEq, Repr

/-- One emitted log line. -/
structure LogLine where
  level : LogLevel
  msg : String
deriving DecidableEq, Repr

/-- The two exception classes the module raises: `FileNotFoundError` and
`ValueError`, each carrying its message string. -/
inductive Err
  | fileNotFound (msg : String)
  | valueError (msg : String)
deriving DecidableEq, Repr

/-- `str(e)` for a raised exception: its message. -/
def Err.str : Err → String
  | .fileNotFound m => m
  | .valueError m => m

/-- `Path.exists()` in the model. -/
def pathExists (fs : FS) (p : FsPath) : Bool := fs.kind p ≠ EntryKind.absent

/-- `validate_path_exists(path, is_dir, path_name)`: `True` iff the path
exists and matches the expected kind; otherwise logs one error line and
returns `False`. Never raises, so the result type is a plain `Bool`
(paired with the emitted log lines). -/
def validate_path_exists (fs : FS) (path : FsPath) (is_dir : Bool)
    (path_name : String) : Bool × List LogLine :=
  if fs.kind path = EntryKind.absent then
    (false, [⟨LogLevel.error, path_name ++ " не существует: " ++ showPath path⟩])
  else if is_dir && !(fs.kind path = EntryKind.dir : Bool) then
    (false, [⟨LogLevel.error, path_name ++ " не является директорией: " ++ showPath path⟩])
  else if !is_dir && !(fs.kind path = EntryKind.file : Bool) then
    (false, [⟨LogLevel.error, path_name ++ " не является файлом: " ++ showPath path⟩])
  else
    (true, [])

/-- The kind a check with flag `is_dir` expects. -/
def expectedKind (is_dir : Bool) : EntryKind :=
  if is_dir then EntryKind.dir else EntryKind.file

/-- Whether a validation of `path` with flag `is_dir` passes on `fs`. -/
def passes (fs : FS) (path : FsPath) (is_dir : Bool) : Bool :=
  fs.kind path = expectedKind is_dir

/-- The single error line `validate_path_exists` emits when it fails. -/
def failMsg (fs : FS) (path : FsPath) (is_dir : Bool) (path_name : String) : String :=
  if fs.kind path = EntryKind.absent then
    path_name ++ " не существует: " ++ showPath path
  else if is_dir then
    path_name ++ " не является директорией: " ++ showPath path
  else
    path_name ++ " не является файлом: " ++ showPath path

/-- A name is hidden when its first character is a dot. -/
def isHiddenName (n : String) : Bool := n.data.head? == some '.'

/-- `Path.glob("*")` on a directory: all of its child entry names.
`pathlib.Path.glob` matches hidden (dot-prefixed) names too — skipping
them is behavior of the `glob` module, not of this method. -/
def globStar (fs : FS) (p : FsPath) : List String :=
  fs.children p

/-- `find_csv_dir_files_china(project_dir)`: validates project root,
`data/`, `data/china_12_lead/`, `records/`, `metadata.csv`, `code.csv` in
that order; the first failure raises `FileNotFoundError`; on success
returns `(records_dir, metadata_file, code_file)`. -/
def find_csv_dir_files_china (fs : FS) (project_dir : FsPath) :
    Except Err (FsPath × FsPath × FsPath) × List LogLine :=
  let v1 := validate_path_exists fs project_dir true "Project directory"
  if !v1.1 then
    (Except.error (Err.fileNotFound ("Project directory not found: " ++ showPath project_dir)), v1.2)
  else
    let data_dir := project_dir ++ ["data"]
    let v2 := validate_path_exists fs data_dir true "Data directory"
    if !v2.1 then
      (Except.error (Err.fileNotFound ("Data directory not found: " ++ showPath data_dir)), v1.2 ++ v2.2)
    else
      let dataset_dir := data_dir ++ ["china_12_lead"]
      let v3 := validate_path_exists fs dataset_dir true "Dataset directory"
      if !v3.1 then
        (Except.error (Err.fileNotFound ("Dataset directory not found: " ++ showPath dataset_dir)), v1.2 ++ v2.2 ++ v3.2)
      else
        let records_dir := dataset_dir ++ ["records"]
        let v4 := validate_path_exists fs records_dir true "Records directory"
        if !v4.1 then
          (Except.error (Err.fileNotFound ("Records directory not found: " ++ showPath records_dir)), v1.2 ++ v2.2 ++ v3.2 ++ v4.2)
        else
          let metadata_file := dataset_dir ++ ["metadata.csv"]
          let v5 := validate_path_exists fs metadata_file false "Metadata file"
          if !v5.1 then
            (Except.error (Err.fileNotFound ("Metadata file not found: " ++ showPath metadata_file)), v1.2 ++ v2.2 ++ v3.2 ++ v4.2 ++ v5.2)
          else
            let code_file := dataset_dir ++ ["code.csv"]
            let v6 := validate_path_exists fs code_file false "Code file"
            if !v6.1 then
              (Except.error (Err.fileNotFound ("Code file not found: " ++ showPath code_file)), v1.2 ++ v2.2 ++ v3.2 ++ v4.2 ++ v5.2 ++ v6.2)
            else
              (Except.ok (records_dir, metadata_file, code_file),
                v1.2 ++ v2.2 ++ v3.2 ++ v4.2 ++ v5.2 ++ v6.2 ++
                  [⟨LogLevel.info, "Successfully validated all paths for china_12_lead dataset"⟩])

/-- `find_csv_dir_files_ptb_xl(project_dir)`: validates project root,
`data/`, `data/ptb_xl/`; then checks `records100/` and `records500/`
(failing only when neither is a directory); then `ptbxl_database.csv` and
`scp_statements.csv`; on success returns
`(records100_dir, records500_dir, metadata_file, code_file)`, both
records paths verbatim whether or not they exist. -/
def find_csv_dir_files_ptb_xl (fs : FS) (project_dir : FsPath) :
    Except Err (FsPath × FsPath × FsPath × FsPath) × List LogLine :=
  let v1 := validate_path_exists fs project_dir true "Project directory"
  if !v1.1 then
    (Except.error (Err.fileNotFound ("Project directory not found: " ++ showPath project_dir)), v1.2)
  else
    let data_dir := project_dir ++ ["data"]
    let v2 := validate_path_exists fs data_dir true "Data directory"
    if !v2.1 then
      (Except.error (Err.fileNotFound ("Data directory not found: " ++ showPath data_dir)), v1.2 ++ v2.2)
    else
      let dataset_dir := data_dir ++ ["ptb_xl"]
      let v3 := validate_path_exists fs dataset_dir true "Dataset directory"
      if !v3.1 then
        (Except.error (Err.fileNotFound ("Dataset directory not found: " ++ showPath dataset_dir)), v1.2 ++ v2.2 ++ v3.2)
      else
        let records100_dir := dataset_dir ++ ["records100"]
        let records500_dir := dataset_dir ++ ["records500"]
        let v100 := validate_path_exists fs records100_dir true "Records100 directory"
        let logs100 := v100.2 ++
          (if v100.1 then [⟨LogLevel.info, "Found low resolution records: " ++ showPath records100_dir⟩] else [])
        let v500 := validate_path_exists fs records500_dir true "Records500 directory"
        let logs500 := v500.2 ++
          (if v500.1 then [⟨LogLevel.info, "Found high resolution records: " ++ showPath records500_dir⟩] else [])
        let acc := v1.2 ++ v2.2 ++ v3.2 ++ logs100 ++ logs500
        if !(v100.1 || v500.1) then
          (Except.error (Err.fileNotFound ("No record directories found in " ++ showPath dataset_dir ++
            ". Checked: " ++ showPath records100_dir ++ ", " ++ showPath records500_dir)), acc)
        else
          let metadata_file := dataset_dir ++ ["ptbxl_database.csv"]
          let v5 := validate_path_exists fs metadata_file false "Metadata file"
          if !v5.1 then
            (Except.error (Err.fileNotFound ("Metadata file not found: " ++ showPath metadata_file)), acc ++ v5.2)
          else
            let code_file := dataset_dir ++ ["scp_statements.csv"]
            let v6 := validate_path_exists fs code_file false "Code file"
            if !v6.1 then
              (Except.error (Err.fileNotFound ("Code file not found: " ++ showPath code_file)), acc ++ v5.2 ++ v6.2)
            else
              (Except.ok (records100_dir, records500_dir, metadata_file, code_file),
                acc ++ v5.2 ++ v6.2 ++
                  [⟨LogLevel.info, "Successfully validated all paths for ptb_xl dataset"⟩])

/-- `find_dirs_mit_bih(project_dir)`: validates project root, `data/`,
`data/mit_bih/`; tries `x_mitdb/`, falling back to requiring a non-empty
`glob("*")` listing of `mit_bih/` itself; on success returns
`(mit_bih_dir, x_mit_bih_dir)`, the latter verbatim even when the
fallback found it absent. -/
def find_dirs_mit_bih (fs : FS) (project_dir : FsPath) :
    Except Err (FsPath × FsPath) × List LogLine :=
  let v1 := validate_path_exists fs project_dir true "Project directory"
  if !v1.1 then
    (Except.error (Err.fileNotFound ("Project directory not found: " ++ showPath project_dir)), v1.2)
  else
    let data_dir := project_dir ++ ["data"]
    let v2 := validate_path_exists fs data_dir true "Data directory"
    if !v2.1 then
      (Except.error (Err.fileNotFound ("Data directory not found: " ++ showPath data_dir)), v1.2 ++ v2.2)
    else
      let mit_bih_dir := data_dir ++ ["mit_bih"]
      let v3 := validate_path_exists fs mit_bih_dir true "MIT-BIH directory"
      if !v3.1 then
        (Except.error (Err.fileNotFound ("MIT-BIH directory not found: " ++ showPath mit_bih_dir)), v1.2 ++ v2.2 ++ v3.2)
      else
        let x_mit_bih_dir := mit_bih_dir ++ ["x_mitdb"]
        let vx := validate_path_exists fs x_mit_bih_dir true "X-MITDB directory"
        if !vx.1 then
          let wlogs := vx.2 ++
            [⟨LogLevel.warning, "X-MITDB directory not found: " ++ showPath x_mit_bih_dir⟩,
             ⟨LogLevel.info, "Checking MIT-BIH root directory for files..."⟩]
          let files := globStar fs mit_bih_dir
          if files.isEmpty then
            (Except.error (Err.fileNotFound ("No files found in MIT-BIH directory: " ++ showPath mit_bih_dir)),
              v1.2 ++ v2.2 ++ v3.2 ++ wlogs)
          else
            (Except.ok (mit_bih_dir, x_mit_bih_dir),
              v1.2 ++ v2.2 ++ v3.2 ++ wlogs ++
                [⟨LogLevel.info, "Found " ++ toString files.length ++ " files/directories in MIT-BIH root directory"⟩,
                 ⟨LogLevel.info, "Successfully validated MIT-BIH dataset paths"⟩])
        else
          (Except.ok (mit_bih_dir, x_mit_bih_dir),
            v1.2 ++ v2.2 ++ v3.2 ++ vx.2 ++
              [⟨LogLevel.info, "Successfully validated MIT-BIH dataset paths"⟩])

/-- `dataset_name.lower()`: lowercases every character (for the ASCII
dataset names the dispatch compares against, Python's `str.lower` is
exactly per-character lowercasing). -/
def strLower (s : String) : String := ⟨s.data.map Char.toLower⟩

/-- Result of `safe_find_paths`: one of the three resolvers' tuples. -/
inductive FindResult
  | china (records_dir metadata_file code_file : FsPath)
  | ptbXl (records100_dir records500_dir metadata_file code_file : FsPath)
  | mitBih (mit_bih_dir x_mit_bih_dir : FsPath)
deriving DecidableEq, Repr

/-- The body of `safe_find_paths`'s `try` block: case-insensitive dispatch
on the dataset name; unknown names raise `ValueError`. -/
def safe_find_paths_body (fs : FS) (dataset_name : String) (project_dir : FsPath) :
    Except Err FindResult × List LogLine :=
  if strLower dataset_name = "china" then
    let r := find_csv_dir_files_china fs project_dir
    (r.1.map (fun t => FindResult.china t.1 t.2.1 t.2.2), r.2)
  else if strLower dataset_name = "ptb_xl" then
    let r := find_csv_dir_files_ptb_xl fs project_dir
    (r.1.map (fun t => FindResult.ptbXl t.1 t.2.1 t.2.2.1 t.2.2.2), r.2)
  else if strLower dataset_name = "mit_bih" then
    let r := find_dirs_mit_bih fs project_dir
    (r.1.map (fun t => FindResult.mitBih t.1 t.2), r.2)
  else
    (Except.error (Err.valueError ("Unknown dataset name: " ++ dataset_name ++
      ". Available: 'china', 'ptb_xl', 'mit_bih'")), [])

/-- The one log line the wrapper emits when the dispatched call raises. -/
def wrapperLine (dataset_name : String) (e : Err) : LogLine :=
  ⟨LogLevel.error, "Failed to find paths for dataset '" ++ dataset_name ++ "': " ++ e.str⟩

/-- `safe_find_paths(dataset_name, project_dir)`: dispatches to a resolver;
a raised `FileNotFoundError` or `ValueError` is logged once at the wrapper
level and re-raised unchanged. -/
def safe_find_paths (fs : FS) (dataset_name : String) (project_dir : FsPath) :
    Except Err FindResult × List LogLine :=
  let r := safe_find_paths_body fs dataset_name project_dir
  match r.1 with
  | Except.error e => (Except.error e, r.2 ++ [wrapperLine dataset_name e])
  | Except.ok v => (Except.ok v, r.2)

/-- Characterization of `validate_path_exists`: it returns `(true, [])`
when the path has the expected kind and `(false, [one error line])`
otherwise. -/
theorem validate_eq (fs : FS) (path : FsPath) (is_dir : Bool) (path_name : String) :
    validate_path_exists fs path is_dir path_name =
      if passes fs path is_dir then (true, [])
      else (false, [⟨LogLevel.error, failMsg fs path is_dir path_name⟩]) := by
  rcases h : fs.kind path <;> rcases is_dir <;>
    simp [validate_path_exists, passes, expectedKind, failMsg, h]

/-- One validation step of a resolver's strict chain: the path, the
expected-kind flag, the label passed to the validator, and the prefix of
the `FileNotFoundError` message raised when the step fails. -/
structure Check where
  path : FsPath
  is_dir : Bool
  label : String
  errName : String
deriving DecidableEq, Repr

/-- The `FileNotFoundError` a failing check raises. -/
def checkFail (c : Check) : Err := Err.fileNotFound (c.errName ++ showPath c.path)

/-- Run a list of checks in order; the first failure raises its error and
stops, and when all pass the continuation `k` supplies the outcome. -/
def runChainK {α : Type} (fs : FS) (k : Except Err α × List LogLine) :
    List Check → Except Err α × List LogLine
  | [] => k
  | c :: cs =>
      let v := validate_path_exists fs c.path c.is_dir c.label
      if v.1 then
        let r := runChainK fs k cs
        (r.1, v.2 ++ r.2)
      else
        (Except.error (checkFail c), v.2)

/-- The first check of a chain that fails on `fs`, if any. -/
def firstFail (fs : FS) : List Check → Option Check
  | [] => none
  | c :: cs => if passes fs c.path c.is_dir then firstFail fs cs else some c

/-- The strict validation chain of the China resolver, in source order. -/
def chinaChecks (project_dir : FsPath) : List Check :=
  [⟨project_dir, true, "Project directory", "Project directory not found: "⟩,
   ⟨project_dir ++ ["data"], true, "Data directory", "Data directory not found: "⟩,
   ⟨project_dir ++ ["data", "china_12_lead"], true, "Dataset directory", "Dataset directory not found: "⟩,
   ⟨project_dir ++ ["data", "china_12_lead", "records"], true, "Records directory", "Records directory not found: "⟩,
   ⟨project_dir ++ ["data", "china_12_lead", "metadata.csv"], false, "Metadata file", "Metadata file not found: "⟩,
   ⟨project_dir ++ ["data", "china_12_lead", "code.csv"], false, "Code file", "Code file not found: "⟩]

/-- The 3-tuple the China resolver returns on success. -/
def chinaTriple (project_dir : FsPath) : FsPath × FsPath × FsPath :=
  (project_dir ++ ["data", "china_12_lead", "records"],
   project_dir ++ ["data", "china_12_lead", "metadata.csv"],
   project_dir ++ ["data", "china_12_lead", "code.csv"])

/-- The strict prefix chain shared by the PTB-XL resolver. -/
def ptbPrefixChecks (project_dir : FsPath) : List Check :=
  [⟨project_dir, true, "Project directory", "Project directory not found: "⟩,
   ⟨project_dir ++ ["data"], true, "Data directory", "Data directory not found: "⟩,
   ⟨project_dir ++ ["data", "ptb_xl"], true, "Dataset directory", "Dataset directory not found: "⟩]

/-- The two file checks of the PTB-XL resolver, in source order. -/
def ptbFileChecks (dataset_dir : FsPath) : List Check :=
  [⟨dataset_dir ++ ["ptbxl_database.csv"], false, "Metadata file", "Metadata file not found: "⟩,
   ⟨dataset_dir ++ ["scp_statements.csv"], false, "Code file", "Code file not found: "⟩]

/-- The 4-tuple the PTB-XL resolver returns on success. -/
def ptbTuple (dataset_dir : FsPath) : FsPath × FsPath × FsPath × FsPath :=
  (dataset_dir ++ ["records100"], dataset_dir ++ ["records500"],
   dataset_dir ++ ["ptbxl_database.csv"], dataset_dir ++ ["scp_statements.csv"])

/-- The `FileNotFoundError` message of the PTB-XL records stage. -/
def ptbNoRecordsMsg (dataset_dir : FsPath) : String :=
  "No record directories found in " ++ showPath dataset_dir ++
    ". Checked: " ++ showPath (dataset_dir ++ ["records100"]) ++ ", " ++
    showPath (dataset_dir ++ ["records500"])

/-- The log lines of the PTB-XL records stage (one error or info line per
records directory). -/
def ptbRecordsLogs (fs : FS) (dataset_dir : FsPath) : List LogLine :=
  (if passes fs (dataset_dir ++ ["records100"]) true then
    [⟨LogLevel.info, "Found low resolution records: " ++ showPath (dataset_dir ++ ["records100"])⟩]
  else
    [⟨LogLevel.error, failMsg fs (dataset_dir ++ ["records100"]) true "Records100 directory"⟩]) ++
  (if passes fs (dataset_dir ++ ["records500"]) true then
    [⟨LogLevel.info, "Found high resolution records: " ++ showPath (dataset_dir ++ ["records500"])⟩]
  else
    [⟨LogLevel.error, failMsg fs (dataset_dir ++ ["records500"]) true "Records500 directory"⟩])

/-- The PTB-XL resolver from the records stage on: fails when neither
records directory exists, otherwise runs the two file checks and returns
the 4-tuple. -/
def ptbMiddle (fs : FS) (dataset_dir : FsPath) :
    Except Err (FsPath × FsPath × FsPath × FsPath) × List LogLine :=
  if passes fs (dataset_dir ++ ["records100"]) true || passes fs (dataset_dir ++ ["records500"]) true then
    let r := runChainK fs
      (Except.ok (ptbTuple dataset_dir),
        [⟨LogLevel.info, "Successfully validated all paths for ptb_xl dataset"⟩])
      (ptbFileChecks dataset_dir)
    (r.1, ptbRecordsLogs fs dataset_dir ++ r.2)
  else
    (Except.error (Err.fileNotFound (ptbNoRecordsMsg dataset_dir)), ptbRecordsLogs fs dataset_dir)

/-- The strict prefix chain of the MIT-BIH resolver. -/
def mitPrefixChecks (project_dir : FsPath) : List Check :=
  [⟨project_dir, true, "Project directory", "Project directory not found: "⟩,
   ⟨project_dir ++ ["data"], true, "Data directory", "Data directory not found: "⟩,
   ⟨project_dir ++ ["data", "mit_bih"], true, "MIT-BIH directory", "MIT-BIH directory not found: "⟩]

/-- The MIT-BIH resolver from the `x_mitdb` attempt on: succeeds at once
when `x_mitdb/` is a directory, otherwise falls back to a `glob("*")`
listing of `mit_bih/`, failing when it is empty. -/
def mitTail (fs : FS) (mit_bih_dir : FsPath) :
    Except Err (FsPath × FsPath) × List LogLine :=
  let x_mit_bih_dir := mit_bih_dir ++ ["x_mitdb"]
  if passes fs x_mit_bih_dir true then
    (Except.ok (mit_bih_dir, x_mit_bih_dir),
      [⟨LogLevel.info, "Successfully validated MIT-BIH dataset paths"⟩])
  else
    let wlogs := [⟨LogLevel.error, failMsg fs x_mit_bih_dir true "X-MITDB directory"⟩,
      ⟨LogLevel.warning, "X-MITDB directory not found: " ++ showPath x_mit_bih_dir⟩,
      ⟨LogLevel.info, "Checking MIT-BIH root directory for files..."⟩]
    if (globStar fs mit_bih_dir).isEmpty then
      (Except.error (Err.fileNotFound ("No files found in MIT-BIH directory: " ++ showPath mit_bih_dir)), wlogs)
    else
      (Except.ok (mit_bih_dir, x_mit_bih_dir),
        wlogs ++ [⟨LogLevel.info, "Found " ++ toString (globStar fs mit_bih_dir).length ++
            " files/directories in MIT-BIH root directory"⟩,
          ⟨LogLevel.info, "Successfully validated MIT-BIH dataset paths"⟩])

/-- A failing check stops the chain: the run raises that check's error and
emits exactly its one validation error line, touching no later check. -/
theorem runChainK_firstFail {α : Type} (fs : FS) (k : Except Err α × List LogLine)
    (cs : List Check) (c : Check) (h : firstFail fs cs = some c) :
    runChainK fs k cs =
      (Except.error (checkFail c), [⟨LogLevel.error, failMsg fs c.path c.is_dir c.label⟩]) := by
  induction cs with
  | nil => simp [firstFail] at h
  | cons d ds ih =>
      rw [firstFail] at h
      by_cases hp : passes fs d.path d.is_dir
      · rw [if_pos hp] at h
        simp [runChainK, validate_eq, hp, ih h]
      · rw [if_neg hp] at h
        cases h
        simp [runChainK, validate_eq, hp]

/-- When every check passes, the run emits no log line of its own and the
continuation supplies the outcome. -/
theorem runChainK_allPass {α : Type} (fs : FS) (k : Except Err α × List LogLine)
    (cs : List Check) (h : firstFail fs cs = none) :
    runChainK fs k cs = k := by
  induction cs with
  | nil => simp [runChainK]
  | cons d ds ih =>
      rw [firstFail] at h
      by_cases hp : passes fs d.path d.is_dir
      · rw [if_pos hp] at h
        simp [runChainK, validate_eq, hp, ih h]
      · rw [if_neg hp] at h
        cases h

/-- The China resolver is the ordered run of its six checks followed by
the success tuple and the success log line. -/
theorem china_eq (fs : FS) (project_dir : FsPath) :
    find_csv_dir_files_china fs project_dir =
      runChainK fs
        (Except.ok (chinaTriple project_dir),
          [⟨LogLevel.info, "Successfully validated all paths for china_12_lead dataset"⟩])
        (chinaChecks project_dir) := by
  simp only [find_csv_dir_files_china, chinaChecks, chinaTriple, runChainK, checkFail,
    validate_eq]
  by_cases h1 : passes fs project_dir true <;> simp only [h1, if_true, if_false] <;> simp_all
  by_cases h2 : passes fs (project_dir ++ ["data"]) true <;> simp_all
  by_cases h3 : passes fs (project_dir ++ ["data", "china_12_lead"]) true <;> simp_all
  by_cases h4 : passes fs (project_dir ++ ["data", "china_12_lead", "records"]) true <;> simp_all
  by_cases h5 : passes fs (project_dir ++ ["data", "china_12_lead", "metadata.csv"]) false <;> simp_all
  by_cases h6 : passes fs (project_dir ++ ["data", "china_12_lead", "code.csv"]) false <;> simp_all

set_option maxHeartbeats 1600000 in
/-- The PTB-XL resolver is the ordered run of its three prefix checks
followed by the records stage and the two file checks. -/
theorem ptb_eq (fs : FS) (project_dir : FsPath) :
    find_csv_dir_files_ptb_xl fs project_dir =
      runChainK fs (ptbMiddle fs (project_dir ++ ["data", "ptb_xl"])) (ptbPrefixChecks project_dir) := by
  simp only [find_csv_dir_files_ptb_xl, ptbPrefixChecks, ptbMiddle, ptbRecordsLogs,
    ptbFileChecks, ptbTuple, ptbNoRecordsMsg, runChainK, checkFail, validate_eq]
  by_cases h1 : passes fs project_dir true
  swap
  · simp [h1]
  by_cases h2 : passes fs (project_dir ++ ["data"]) true
  swap
  · simp [h1, h2]
  by_cases h3 : passes fs (project_dir ++ ["data", "ptb_xl"]) true
  swap
  · simp [h1, h2, h3]
  by_cases h100 : passes fs (project_dir ++ ["data", "ptb_xl", "records100"]) true <;>
  by_cases h500 : passes fs (project_dir ++ ["data", "ptb_xl", "records500"]) true <;>
  by_cases h5 : passes fs (project_dir ++ ["data", "ptb_xl", "ptbxl_database.csv"]) false <;>
  by_cases h6 : passes fs (project_dir ++ ["data", "ptb_xl", "scp_statements.csv"]) false <;>
  simp [h1, h2, h3, h100, h500, h5, h6]

/-- The MIT-BIH resolver is the ordered run of its three prefix checks
followed by the `x_mitdb` attempt and its fallback. -/
theorem mit_eq (fs : FS) (project_dir : FsPath) :
    find_dirs_mit_bih fs project_dir =
      runChainK fs (mitTail fs (project_dir ++ ["data", "mit_bih"])) (mitPrefixChecks project_dir) := by
  simp only [find_dirs_mit_bih, mitPrefixChecks, mitTail, runChainK, checkFail, validate_eq]
  by_cases h1 : passes fs project_dir true
  swap
  · simp [h1]
  by_cases h2 : passes fs (project_dir ++ ["data"]) true
  swap
  · simp [h1, h2]
  by_cases h3 : passes fs (project_dir ++ ["data", "mit_bih"]) true
  swap
  · simp [h1, h2, h3]
  by_cases hx : passes fs (project_dir ++ ["data", "mit_bih", "x_mitdb"]) true <;>
  by_cases hg : (globStar fs (project_dir ++ ["data", "mit_bih"])).isEmpty <;>
  simp [h1, h2, h3, hx, hg]

/-- A check with flag `true` passes exactly on a directory. -/
theorem passes_true_iff (fs : FS) (p : FsPath) :
    passes fs p true = true ↔ fs.kind p = EntryKind.dir := by
  simp [passes, expectedKind]

/-- A check with flag `false` passes exactly on a regular file. -/
theorem passes_false_iff (fs : FS) (p : FsPath) :
    passes fs p false = true ↔ fs.kind p = EntryKind.file := by
  simp [passes, expectedKind]

/-- The outcome of the PTB-XL file stage (metadata then code check), the
computation the resolver proceeds to once a records directory was found. -/
def ptbFilesOutcome (fs : FS) (dataset_dir : FsPath) :
    Except Err (FsPath × FsPath × FsPath × FsPath) :=
  (runChainK fs
    (Except.ok (ptbTuple dataset_dir),
      [⟨LogLevel.info, "Successfully validated all paths for ptb_xl dataset"⟩])
    (ptbFileChecks dataset_dir)).1

/-- An empty filesystem. -/
def fsAbsent : FS := ⟨fun _ => EntryKind.absent, fun _ => []⟩

/-- A filesystem holding exactly the given directories and regular files,
with no directory listings. -/
def fsOf (dirs files : List FsPath) : FS :=
  ⟨fun p => if p ∈ dirs then EntryKind.dir else if p ∈ files then EntryKind.file else EntryKind.absent,
   fun _ => []⟩

/-- A filesystem holding a single regular file `f`. -/
def fsFileOnly : FS := fsOf [] [["f"]]

/-- A fully populated China layout under root `r`. -/
def fsChinaFull : FS :=
  fsOf [["r"], ["r", "data"], ["r", "data", "china_12_lead"], ["r", "data", "china_12_lead", "records"]]
    [["r", "data", "china_12_lead", "metadata.csv"], ["r", "data", "china_12_lead", "code.csv"]]

/-- A PTB-XL layout under root `r` with only `records100/` (no metadata or
code files yet). -/
def fsPtbA : FS :=
  fsOf [["r"], ["r", "data"], ["r", "data", "ptb_xl"], ["r", "data", "ptb_xl", "records100"]] []

/-- A PTB-XL layout under root `r` with neither records directory. -/
def fsPtbB : FS := fsOf [["r"], ["r", "data"], ["r", "data", "ptb_xl"]] []

/-- A complete PTB-XL layout under root `r` except that `records500/` is
absent. -/
def fsPtbC : FS :=
  fsOf [["r"], ["r", "data"], ["r", "data", "ptb_xl"], ["r", "data", "ptb_xl", "records100"]]
    [["r", "data", "ptb_xl", "ptbxl_database.csv"], ["r", "data", "ptb_xl", "scp_statements.csv"]]

/-- A MIT-BIH layout under root `r` with `x_mitdb/` present and
non-empty (holding one record entry `100.atr`). -/
def fsMitA : FS :=
  ⟨fun p =>
    if p ∈ [["r"], ["r", "data"], ["r", "data", "mit_bih"], ["r", "data", "mit_bih", "x_mitdb"]] then
      EntryKind.dir
    else EntryKind.absent,
   fun p =>
    if p = ["r", "data", "mit_bih", "x_mitdb"] then ["100.atr"]
    else if p = ["r", "data", "mit_bih"] then ["x_mitdb"]
    else []⟩

/-- A MIT-BIH layout under root `r` without `x_mitdb/` but with one
visible entry `100` in `mit_bih/`. -/
def fsMitB : FS :=
  ⟨fun p => if p ∈ [["r"], ["r", "data"], ["r", "data", "mit_bih"]] then EntryKind.dir else EntryKind.absent,
   fun p => if p = ["r", "data", "mit_bih"] then ["100"] else []⟩

/-- A MIT-BIH layout under root `r` without `x_mitdb/` whose `mit_bih/`
directory contains exactly one entry, the hidden name `.hidden`. -/
def fsMitHidden : FS :=
  ⟨fun p => if p ∈ [["r"], ["r", "data"], ["r", "data", "mit_bih"]] then EntryKind.dir else EntryKind.absent,
   fun p => if p = ["r", "data", "mit_bih"] then [".hidden"] else []⟩

/-- **C1.** `validate_path_exists` returns `true` iff the path exists and
matches the expected kind; when it does not, it emits one descriptive
error line and returns `false` (it never raises — its result type is a
plain boolean with log output); in particular an existing regular file
checked with the directory flag yields `false`. -/
theorem claim_c1_validator (fs : FS) (path : FsPath) (is_dir : Bool) (path_name : String) :
    ((validate_path_exists fs path is_dir path_name).1 = true ↔
      (pathExists fs path = true ∧ fs.kind path = expectedKind is_dir))
    ∧ ((validate_path_exists fs path is_dir path_name).1 = false ↔
        ∃ m, (validate_path_exists fs path is_dir path_name).2 = [⟨LogLevel.error, m⟩])
    ∧ ((validate_path_exists fs path is_dir path_name).1 = true ↔
        (validate_path_exists fs path is_dir path_name).2 = [])
    ∧ (fs.kind path = EntryKind.file → (validate_path_exists fs path true path_name).1 = false) := by
  rcases h : fs.kind path <;> rcases is_dir <;>
    simp [validate_eq, passes, expectedKind, failMsg, pathExists, h]

/-- Witness for C1 at a concrete input: a filesystem holding only the
regular file `f`, checked with the directory flag, yields `false`. -/
theorem claim_c1_validator_witness :
    fsFileOnly.kind ["f"] = EntryKind.file
    ∧ (validate_path_exists fsFileOnly ["f"] true "Project directory").1 = false :=
  ⟨rfl, (claim_c1_validator fsFileOnly ["f"] true "Project directory").2.2.2 rfl⟩

/-- **C2.** In each resolver, the first failing required path of the
success chain determines the outcome: the call raises `FileNotFoundError`
naming exactly that path, the emitted log stops at that check (no later
path of the chain is touched), and nothing is returned. The strict chains
are `chinaChecks`, `ptbPrefixChecks` (+ records stage + `ptbFileChecks`)
and `mitPrefixChecks` (+ the `x_mitdb`/glob fallback requirement). -/
theorem claim_c2_first_missing_path (fs : FS) (project_dir : FsPath) :
    (∀ c, firstFail fs (chinaChecks project_dir) = some c →
        find_csv_dir_files_china fs project_dir =
          (Except.error (checkFail c), [⟨LogLevel.error, failMsg fs c.path c.is_dir c.label⟩]))
    ∧ (∀ c, firstFail fs (ptbPrefixChecks project_dir) = some c →
        find_csv_dir_files_ptb_xl fs project_dir =
          (Except.error (checkFail c), [⟨LogLevel.error, failMsg fs c.path c.is_dir c.label⟩]))
    ∧ (firstFail fs (ptbPrefixChecks project_dir) = none →
        passes fs (project_dir ++ ["data", "ptb_xl", "records100"]) true = false →
        passes fs (project_dir ++ ["data", "ptb_xl", "records500"]) true = false →
        find_csv_dir_files_ptb_xl fs project_dir =
          (Except.error (Err.fileNotFound (ptbNoRecordsMsg (project_dir ++ ["data", "ptb_xl"]))),
            ptbRecordsLogs fs (project_dir ++ ["data", "ptb_xl"])))
    ∧ (firstFail fs (ptbPrefixChecks project_dir) = none →
        (passes fs (project_dir ++ ["data", "ptb_xl", "records100"]) true = true ∨
          passes fs (project_dir ++ ["data", "ptb_xl", "records500"]) true = true) →
        ∀ c, firstFail fs (ptbFileChecks (project_dir ++ ["data", "ptb_xl"])) = some c →
        find_csv_dir_files_ptb_xl fs project_dir =
          (Except.error (checkFail c),
            ptbRecordsLogs fs (project_dir ++ ["data", "ptb_xl"]) ++
              [⟨LogLevel.error, failMsg fs c.path c.is_dir c.label⟩]))
    ∧ (∀ c, firstFail fs (mitPrefixChecks project_dir) = some c →
        find_dirs_mit_bih fs project_dir =
          (Except.error (checkFail c), [⟨LogLevel.error, failMsg fs c.path c.is_dir c.label⟩]))
    ∧ (firstFail fs (mitPrefixChecks project_dir) = none →
        passes fs (project_dir ++ ["data", "mit_bih", "x_mitdb"]) true = false →
        (globStar fs (project_dir ++ ["data", "mit_bih"])).isEmpty = true →
        find_dirs_mit_bih fs project_dir =
          (Except.error (Err.fileNotFound ("No files found in MIT-BIH directory: " ++
              showPath (project_dir ++ ["data", "mit_bih"]))),
            [⟨LogLevel.error, failMsg fs (project_dir ++ ["data", "mit_bih", "x_mitdb"]) true "X-MITDB directory"⟩,
             ⟨LogLevel.warning, "X-MITDB directory not found: " ++ showPath (project_dir ++ ["data", "mit_bih", "x_mitdb"])⟩,
             ⟨LogLevel.info, "Checking MIT-BIH root directory for files..."⟩])) := by
  refine ⟨?_, ?_, ?_, ?_, ?_, ?_⟩
  · intro c h
    rw [china_eq]
    exact runChainK_firstFail fs _ _ c h
  · intro c h
    rw [ptb_eq]
    exact runChainK_firstFail fs _ _ c h
  · intro h h100 h500
    rw [ptb_eq, runChainK_allPass fs _ _ h]
    simp [ptbMiddle, h100, h500]
  · intro h hor c hc
    rw [ptb_eq, runChainK_allPass fs _ _ h]
    rcases hor with h' | h' <;>
      simp [ptbMiddle, h', runChainK_firstFail fs _ _ c hc]
  · intro c h
    rw [mit_eq]
    exact runChainK_firstFail fs _ _ c h
  · intro h hx hg
    rw [mit_eq, runChainK_allPass fs _ _ h]
    simp [mitTail, hx, hg]

/-- Witness for C2 at a concrete input: on the empty filesystem the China
resolver fails at the very first check of its chain, raising the error
naming the project directory and logging exactly that one validation
line. -/
theorem claim_c2_first_missing_path_witness :
    firstFail fsAbsent (chinaChecks ["r"]) =
      some ⟨["r"], true, "Project directory", "Project directory not found: "⟩
    ∧ find_csv_dir_files_china fsAbsent ["r"] =
        (Except.error (Err.fileNotFound "Project directory not found: r"),
          [⟨LogLevel.error, "Project directory не существует: r"⟩]) := by
  have h : firstFail fsAbsent (chinaChecks ["r"]) =
      some ⟨["r"], true, "Project directory", "Project directory not found: "⟩ := rfl
  exact ⟨h, (claim_c2_first_missing_path fsAbsent ["r"]).1 _ h⟩

/-- **C3.** Given the PTB-XL prefix (project root, `data/`,
`data/ptb_xl/`) in place, the resolver proceeds past the records check —
its outcome is exactly that of the metadata/code file stage — whenever at
least one of `records100/`, `records500/` is a directory, and raises the
no-record-directories `FileNotFoundError` when neither is. -/
theorem claim_c3_ptb_records_stage (fs : FS) (project_dir : FsPath)
    (h1 : fs.kind project_dir = EntryKind.dir)
    (h2 : fs.kind (project_dir ++ ["data"]) = EntryKind.dir)
    (h3 : fs.kind (project_dir ++ ["data", "ptb_xl"]) = EntryKind.dir) :
    ((fs.kind (project_dir ++ ["data", "ptb_xl", "records100"]) = EntryKind.dir ∨
        fs.kind (project_dir ++ ["data", "ptb_xl", "records500"]) = EntryKind.dir) →
      (find_csv_dir_files_ptb_xl fs project_dir).1 =
        ptbFilesOutcome fs (project_dir ++ ["data", "ptb_xl"]))
    ∧ (fs.kind (project_dir ++ ["data", "ptb_xl", "records100"]) ≠ EntryKind.dir →
        fs.kind (project_dir ++ ["data", "ptb_xl", "records500"]) ≠ EntryKind.dir →
        (find_csv_dir_files_ptb_xl fs project_dir).1 =
          Except.error (Err.fileNotFound (ptbNoRecordsMsg (project_dir ++ ["data", "ptb_xl"])))) := by
  have hpre : firstFail fs (ptbPrefixChecks project_dir) = none := by
    simp [firstFail, ptbPrefixChecks, passes, expectedKind, h1, h2, h3]
  constructor
  · intro hor
    rw [ptb_eq, runChainK_allPass fs _ _ hpre]
    rcases hor with h' | h' <;>
      simp [ptbMiddle, ptbFilesOutcome, passes, expectedKind, h']
  · intro h100 h500
    rw [ptb_eq, runChainK_allPass fs _ _ hpre]
    simp [ptbMiddle, passes, expectedKind, h100, h500]

/-- Witness for C3 at concrete inputs: with only `records100/` present the
resolver passes the records stage and reaches the metadata check; with
neither records directory it raises the no-record-directories error. -/
theorem claim_c3_ptb_records_stage_witness :
    (find_csv_dir_files_ptb_xl fsPtbA ["r"]).1 =
      Except.error (Err.fileNotFound "Metadata file not found: r/data/ptb_xl/ptbxl_database.csv")
    ∧ (find_csv_dir_files_ptb_xl fsPtbB ["r"]).1 =
        Except.error (Err.fileNotFound (ptbNoRecordsMsg ["r", "data", "ptb_xl"])) := by
  constructor
  · have h := (claim_c3_ptb_records_stage fsPtbA ["r"] rfl rfl rfl).1 (Or.inl rfl)
    exact h.trans rfl
  · exact (claim_c3_ptb_records_stage fsPtbB ["r"] rfl rfl rfl).2
      (by decide) (by decide)

/-- **C4.** Whenever the PTB-XL resolver succeeds it returns exactly the
4-tuple `(dataset/records100, dataset/records500, dataset/ptbxl_database.csv,
dataset/scp_statements.csv)`, the records paths verbatim whether or not
they exist; in particular when `records500/` is absent the returned second
component is still that path and an existence check on it fails. -/
theorem claim_c4_ptb_verbatim_tuple (fs : FS) (project_dir : FsPath)
    (t : FsPath × FsPath × FsPath × FsPath)
    (h : (find_csv_dir_files_ptb_xl fs project_dir).1 = Except.ok t) :
    t = ptbTuple (project_dir ++ ["data", "ptb_xl"])
    ∧ t.2.1 = project_dir ++ ["data", "ptb_xl", "records500"]
    ∧ (fs.kind (project_dir ++ ["data", "ptb_xl", "records500"]) = EntryKind.absent →
        pathExists fs t.2.1 = false) := by
  have ht : t = ptbTuple (project_dir ++ ["data", "ptb_xl"]) := by
    rw [ptb_eq] at h
    rcases hf : firstFail fs (ptbPrefixChecks project_dir) with _ | c
    · rw [runChainK_allPass fs _ _ hf] at h
      simp only [ptbMiddle] at h
      split at h
      · rcases hff : firstFail fs (ptbFileChecks (project_dir ++ ["data", "ptb_xl"])) with _ | c
        · rw [runChainK_allPass fs _ _ hff] at h
          simp at h
          exact h.symm
        · rw [runChainK_firstFail fs _ _ c hff] at h
          simp at h
      · simp at h
    · rw [runChainK_firstFail fs _ _ c hf] at h
      simp at h
  refine ⟨ht, by rw [ht]; simp [ptbTuple], ?_⟩
  intro habs
  rw [ht]
  simp [ptbTuple, pathExists, habs]

/-- Witness for C4 at a concrete input: a PTB-XL layout lacking
`records500/` succeeds, returns the absent `records500` path verbatim,
and an existence check on that returned path fails. -/
theorem claim_c4_ptb_verbatim_tuple_witness :
    (find_csv_dir_files_ptb_xl fsPtbC ["r"]).1 =
      Except.ok (ptbTuple ["r", "data", "ptb_xl"])
    ∧ (ptbTuple ["r", "data", "ptb_xl"]).2.1 = ["r", "data", "ptb_xl", "records500"]
    ∧ pathExists fsPtbC (ptbTuple ["r", "data", "ptb_xl"]).2.1 = false := by
  have h : (find_csv_dir_files_ptb_xl fsPtbC ["r"]).1 =
      Except.ok (ptbTuple (["r"] ++ ["data", "ptb_xl"])) := rfl
  have hc := claim_c4_ptb_verbatim_tuple fsPtbC ["r"] _ h
  exact ⟨h, hc.2.1, hc.2.2 rfl⟩

/-- **C5.** Given the MIT-BIH prefix (project root, `data/`,
`data/mit_bih/`) in place: if `mit_bih/x_mitdb/` is present (and
non-empty), the resolver succeeds and returns the 2-tuple
`(mit_bih_dir, x_mit_bih_dir)` including that `x_mitdb` path; if
`x_mitdb/` is absent but `mit_bih/` itself contains at least one entry,
it succeeds via the fallback and still returns the same 2-tuple with the
absent `x_mitdb` path verbatim; if `x_mitdb/` is absent and `mit_bih/` is
empty, it raises the missing-path `FileNotFoundError`. -/
theorem claim_c5_mit_bih_resolution (fs : FS) (project_dir : FsPath)
    (h1 : fs.kind project_dir = EntryKind.dir)
    (h2 : fs.kind (project_dir ++ ["data"]) = EntryKind.dir)
    (h3 : fs.kind (project_dir ++ ["data", "mit_bih"]) = EntryKind.dir) :
    (fs.kind (project_dir ++ ["data", "mit_bih", "x_mitdb"]) = EntryKind.dir →
      fs.children (project_dir ++ ["data", "mit_bih", "x_mitdb"]) ≠ [] →
      (find_dirs_mit_bih fs project_dir).1 =
        Except.ok (project_dir ++ ["data", "mit_bih"], project_dir ++ ["data", "mit_bih", "x_mitdb"]))
    ∧ (fs.kind (project_dir ++ ["data", "mit_bih", "x_mitdb"]) = EntryKind.absent →
        fs.children (project_dir ++ ["data", "mit_bih"]) ≠ [] →
        (find_dirs_mit_bih fs project_dir).1 =
          Except.ok (project_dir ++ ["data", "mit_bih"], project_dir ++ ["data", "mit_bih", "x_mitdb"]))
    ∧ (fs.kind (project_dir ++ ["data", "mit_bih", "x_mitdb"]) = EntryKind.absent →
        fs.children (project_dir ++ ["data", "mit_bih"]) = [] →
        (find_dirs_mit_bih fs project_dir).1 =
          Except.error (Err.fileNotFound ("No files found in MIT-BIH directory: " ++
            showPath (project_dir ++ ["data", "mit_bih"])))) := by
  have hpre : firstFail fs (mitPrefixChecks project_dir) = none := by
    simp [firstFail, mitPrefixChecks, passes, expectedKind, h1, h2, h3]
  refine ⟨?_, ?_, ?_⟩
  · intro hx _
    rw [mit_eq, runChainK_allPass fs _ _ hpre]
    simp [mitTail, passes, expectedKind, hx]
  · intro hx hg
    rw [mit_eq, runChainK_allPass fs _ _ hpre]
    simp [mitTail, globStar, passes, expectedKind, hx, hg]
  · intro hx hg
    rw [mit_eq, runChainK_allPass fs _ _ hpre]
    simp [mitTail, globStar, passes, expectedKind, hx, hg]

/-- Witness for C5 at concrete inputs: with a non-empty `x_mitdb/` present
the resolver returns it; with it absent but an entry `100` in `mit_bih/`
the fallback succeeds and still returns the absent `x_mitdb` path; with
`mit_bih/` empty it raises. -/
theorem claim_c5_mit_bih_resolution_witness :
    (find_dirs_mit_bih fsMitA ["r"]).1 =
      Except.ok (["r", "data", "mit_bih"], ["r", "data", "mit_bih", "x_mitdb"])
    ∧ (find_dirs_mit_bih fsMitB ["r"]).1 =
        Except.ok (["r", "data", "mit_bih"], ["r", "data", "mit_bih", "x_mitdb"])
    ∧ pathExists fsMitB ["r", "data", "mit_bih", "x_mitdb"] = false
    ∧ (find_dirs_mit_bih (fsOf [["r"], ["r", "data"], ["r", "data", "mit_bih"]] []) ["r"]).1 =
        Except.error (Err.fileNotFound "No files found in MIT-BIH directory: r/data/mit_bih") := by
  refine ⟨?_, ?_, rfl, ?_⟩
  · exact ((claim_c5_mit_bih_resolution fsMitA ["r"] rfl rfl rfl).1 rfl (by decide)).trans rfl
  · exact ((claim_c5_mit_bih_resolution fsMitB ["r"] rfl rfl rfl).2.1 rfl (by decide)).trans rfl
  · exact ((claim_c5_mit_bih_resolution (fsOf [["r"], ["r", "data"], ["r", "data", "mit_bih"]] [])
      ["r"] rfl rfl rfl).2.2 rfl rfl).trans rfl

/-- **C6.** The China resolver is exactly the ordered run of its six
checks (project root, `data/`, `data/china_12_lead/`, `records/`,
`metadata.csv`, `code.csv`, in that order), and on a fully populated
layout it returns exactly the 3-tuple
`(root/data/china_12_lead/records, .../metadata.csv, .../code.csv)`
with the success log line. -/
theorem claim_c6_china_success (fs : FS) (project_dir : FsPath) :
    find_csv_dir_files_china fs project_dir =
      runChainK fs
        (Except.ok (chinaTriple project_dir),
          [⟨LogLevel.info, "Successfully validated all paths for china_12_lead dataset"⟩])
        (chinaChecks project_dir)
    ∧ (fs.kind project_dir = EntryKind.dir →
        fs.kind (project_dir ++ ["data"]) = EntryKind.dir →
        fs.kind (project_dir ++ ["data", "china_12_lead"]) = EntryKind.dir →
        fs.kind (project_dir ++ ["data", "china_12_lead", "records"]) = EntryKind.dir →
        fs.kind (project_dir ++ ["data", "china_12_lead", "metadata.csv"]) = EntryKind.file →
        fs.kind (project_dir ++ ["data", "china_12_lead", "code.csv"]) = EntryKind.file →
        find_csv_dir_files_china fs project_dir =
          (Except.ok (chinaTriple project_dir),
            [⟨LogLevel.info, "Successfully validated all paths for china_12_lead dataset"⟩])) := by
  refine ⟨china_eq fs project_dir, ?_⟩
  intro h1 h2 h3 h4 h5 h6
  have hpre : firstFail fs (chinaChecks project_dir) = none := by
    simp [firstFail, chinaChecks, passes, expectedKind, h1, h2, h3, h4, h5, h6]
  rw [china_eq, runChainK_allPass fs _ _ hpre]

/-- Witness for C6 at a concrete input: the fully populated China layout
under root `r` yields exactly the documented triple of paths. -/
theorem claim_c6_china_success_witness :
    find_csv_dir_files_china fsChinaFull ["r"] =
      (Except.ok (["r", "data", "china_12_lead", "records"],
          ["r", "data", "china_12_lead", "metadata.csv"],
          ["r", "data", "china_12_lead", "code.csv"]),
        [⟨LogLevel.info, "Successfully validated all paths for china_12_lead dataset"⟩]) :=
  ((claim_c6_china_success fsChinaFull ["r"]).2 rfl rfl rfl rfl rfl rfl).trans rfl

/-- The three recognised dataset names are already lowercase. -/
theorem strLower_china : strLower "china" = "china" := rfl

/-- `ptb_xl` is already lowercase. -/
theorem strLower_ptb_xl : strLower "ptb_xl" = "ptb_xl" := rfl

/-- `mit_bih` is already lowercase. -/
theorem strLower_mit_bih : strLower "mit_bih" = "mit_bih" := rfl

/-- **C7.** `safe_find_paths` dispatches case-insensitively: any name
whose lowercasing is `china`, `ptb_xl` or `mit_bih` produces the same
result (value or error) as the lowercase name, and any name whose
lowercasing is none of the three raises the invalid-argument
`ValueError`. -/
theorem claim_c7_case_insensitive_dispatch (fs : FS) (dataset_name : String) (project_dir : FsPath) :
    ((strLower dataset_name = "china" ∨ strLower dataset_name = "ptb_xl" ∨
        strLower dataset_name = "mit_bih") →
      (safe_find_paths fs dataset_name project_dir).1 =
        (safe_find_paths fs (strLower dataset_name) project_dir).1)
    ∧ (strLower dataset_name ≠ "china" → strLower dataset_name ≠ "ptb_xl" →
        strLower dataset_name ≠ "mit_bih" →
        (safe_find_paths fs dataset_name project_dir).1 =
          Except.error (Err.valueError ("Unknown dataset name: " ++ dataset_name ++
            ". Available: 'china', 'ptb_xl', 'mit_bih'"))) := by
  constructor
  · intro hor
    rcases hor with h | h | h <;> rw [h] <;>
      simp [safe_find_paths, safe_find_paths_body, h,
        strLower_china, strLower_ptb_xl, strLower_mit_bih] <;>
      split <;> simp_all
  · intro h1 h2 h3
    simp [safe_find_paths, safe_find_paths_body, h1, h2, h3]

/-- Witness for C7 at concrete inputs: `safe_find_paths("CHINA", r)`
produces the same result as `safe_find_paths("china", r)`, and an unknown
name raises the `ValueError`. -/
theorem claim_c7_case_insensitive_dispatch_witness :
    (safe_find_paths fsAbsent "CHINA" ["r"]).1 = (safe_find_paths fsAbsent "china" ["r"]).1
    ∧ (safe_find_paths fsAbsent "unknown" ["r"]).1 =
        Except.error (Err.valueError "Unknown dataset name: unknown. Available: 'china', 'ptb_xl', 'mit_bih'") := by
  constructor
  · exact (claim_c7_case_insensitive_dispatch fsAbsent "CHINA" ["r"]).1 (Or.inl rfl)
  · exact ((claim_c7_case_insensitive_dispatch fsAbsent "unknown" ["r"]).2
      (by decide) (by decide) (by decide)).trans rfl

/-- **C8, counterexample.** The claim says every failure is accompanied by
exactly one descriptive log line identifying the failing path. On the
empty filesystem, `safe_find_paths("china", r)` emits two such error
lines — the validator's and the wrapper's, both naming the project
directory — before the error propagates. -/
theorem claim_c8_counterexample :
    (safe_find_paths fsAbsent "china" ["r"]).2 =
      [⟨LogLevel.error, "Project directory не существует: r"⟩,
       ⟨LogLevel.error, "Failed to find paths for dataset 'china': Project directory not found: r"⟩] :=
  rfl

/-- **C8, amended.** Every error raised inside `safe_find_paths` is
re-raised unchanged (same exception, no wrapping, no retry), and the
wrapper appends exactly one descriptive wrapper-level log line naming the
dataset and the error, after the lines the resolver already emitted (for
path failures the validator has itself logged one error line, so a
failing call is accompanied by the wrapper line in addition to the
validator's, not by exactly one line in total). -/
theorem claim_c8_reraise_unchanged (fs : FS) (dataset_name : String) (project_dir : FsPath)
    (e : Err) (h : (safe_find_paths_body fs dataset_name project_dir).1 = Except.error e) :
    (safe_find_paths fs dataset_name project_dir).1 = Except.error e
    ∧ (safe_find_paths fs dataset_name project_dir).2 =
        (safe_find_paths_body fs dataset_name project_dir).2 ++ [wrapperLine dataset_name e] := by
  constructor <;> simp [safe_find_paths, h]

/-- Witness for the amended C8 at a concrete input: the `ValueError` of an
unknown dataset name propagates unchanged with exactly the one wrapper
log line. -/
theorem claim_c8_reraise_unchanged_witness :
    (safe_find_paths fsAbsent "unknown" ["r"]).1 =
      Except.error (Err.valueError "Unknown dataset name: unknown. Available: 'china', 'ptb_xl', 'mit_bih'")
    ∧ (safe_find_paths fsAbsent "unknown" ["r"]).2 =
        [wrapperLine "unknown" (Err.valueError "Unknown dataset name: unknown. Available: 'china', 'ptb_xl', 'mit_bih'")] :=
  claim_c8_reraise_unchanged fsAbsent "unknown" ["r"]
    (Err.valueError "Unknown dataset name: unknown. Available: 'china', 'ptb_xl', 'mit_bih'") rfl

/-- The world a call runs in: the filesystem and the global log stream.
`runSafeFind` performs one call of `safe_find_paths`: it appends the
call's log lines to the stream, leaves the filesystem untouched (the code
only stat-checks and lists paths), and yields the call's result. -/
structure World where
  fs : FS
  log : List LogLine

/-- One call of `safe_find_paths` acting on a `World`. -/
def runSafeFind (w : World) (dataset_name : String) (project_dir : FsPath) :
    World × Except Err FindResult :=
  (⟨w.fs, w.log ++ (safe_find_paths w.fs dataset_name project_dir).2⟩,
    (safe_find_paths w.fs dataset_name project_dir).1)

/-- **C9.** Two successive calls of `safe_find_paths` with the same inputs
produce the same result — the first call mutates nothing but the log
stream (the filesystem component of the world is unchanged), so the
second call returns the same tuple of paths or the same error. -/
theorem claim_c9_idempotent_calls (w : World) (dataset_name : String) (project_dir : FsPath) :
    (runSafeFind w dataset_name project_dir).1.fs = w.fs
    ∧ (runSafeFind (runSafeFind w dataset_name project_dir).1 dataset_name project_dir).2 =
        (runSafeFind w dataset_name project_dir).2
    ∧ (runSafeFind (runSafeFind w dataset_name project_dir).1 dataset_name project_dir).1.fs
        = w.fs := by
  exact ⟨rfl, rfl, rfl⟩

/-- **C10, counterexample.** The claim says `glob("*")` does not match
dot-prefixed entries, so a hidden-only `mit_bih/` without `x_mitdb/`
raises. It does not: `pathlib.Path.glob("*")` matches hidden names too
(skipping them is the `glob` module's behavior), so on a filesystem where
`x_mitdb/` is absent and `mit_bih/` contains exactly the hidden entry
`.hidden`, the resolver succeeds via the fallback instead of raising. -/
theorem claim_c10_counterexample :
    pathExists fsMitHidden ["r", "data", "mit_bih", "x_mitdb"] = false
    ∧ fsMitHidden.children ["r", "data", "mit_bih"] = [".hidden"]
    ∧ isHiddenName ".hidden" = true
    ∧ (find_dirs_mit_bih fsMitHidden ["r"]).1 =
        Except.ok (["r", "data", "mit_bih"], ["r", "data", "mit_bih", "x_mitdb"]) :=
  ⟨rfl, rfl, rfl, rfl⟩

set_option linter.unusedVariables false in
/-- **C10, amended.** In the `find_dirs_mit_bih` fallback branch
(`x_mitdb/` absent), the non-emptiness check lists `mit_bih/` with
`glob("*")`, which matches dot-prefixed entries as well; therefore for
every `mit_bih/` directory that contains only hidden (dot-prefixed)
entries and no `x_mitdb/`, the call succeeds via the fallback — the
listing is the full (non-empty) set of entries and no missing-path error
is raised. -/
theorem claim_c10_hidden_entries_fallback (fs : FS) (project_dir : FsPath)
    (h1 : fs.kind project_dir = EntryKind.dir)
    (h2 : fs.kind (project_dir ++ ["data"]) = EntryKind.dir)
    (h3 : fs.kind (project_dir ++ ["data", "mit_bih"]) = EntryKind.dir)
    (hx : fs.kind (project_dir ++ ["data", "mit_bih", "x_mitdb"]) = EntryKind.absent)
    (hhid : ∀ n ∈ fs.children (project_dir ++ ["data", "mit_bih"]), isHiddenName n = true)
    (hne : fs.children (project_dir ++ ["data", "mit_bih"]) ≠ []) :
    globStar fs (project_dir ++ ["data", "mit_bih"]) =
      fs.children (project_dir ++ ["data", "mit_bih"])
    ∧ globStar fs (project_dir ++ ["data", "mit_bih"]) ≠ []
    ∧ (find_dirs_mit_bih fs project_dir).1 =
        Except.ok (project_dir ++ ["data", "mit_bih"], project_dir ++ ["data", "mit_bih", "x_mitdb"]) := by
  have hglob : globStar fs (project_dir ++ ["data", "mit_bih"]) =
      fs.children (project_dir ++ ["data", "mit_bih"]) := rfl
  have hpre : firstFail fs (mitPrefixChecks project_dir) = none := by
    simp [firstFail, mitPrefixChecks, passes, expectedKind, h1, h2, h3]
  refine ⟨hglob, hglob ▸ hne, ?_⟩
  rw [mit_eq, runChainK_allPass fs _ _ hpre]
  simp [mitTail, globStar, passes, expectedKind, hx, hne]

/-- Witness for the amended C10 at a concrete input: `mit_bih/` holding
only the hidden entry `.hidden` (and no `x_mitdb/`) still satisfies the
fallback's non-emptiness check, and the resolver succeeds. -/
theorem claim_c10_hidden_entries_fallback_witness :
    fsMitHidden.children ["r", "data", "mit_bih"] ≠ []
    ∧ globStar fsMitHidden (["r"] ++ ["data", "mit_bih"]) ≠ []
    ∧ (find_dirs_mit_bih fsMitHidden ["r"]).1 =
        Except.ok (["r", "data", "mit_bih"], ["r", "data", "mit_bih", "x_mitdb"]) := by
  have hc := claim_c10_hidden_entries_fallback fsMitHidden ["r"] rfl rfl rfl
    rfl (by decide) (by decide)
  exact ⟨by decide, hc.2.1, hc.2.2.trans rfl⟩

end DataFinders
